import Mathlib

/-!
Shallow embedding of the SGNL content-quality scoring engine
(`app/extractor.py` and the structural analyzer specified alongside it).

Python floats are modelled as rationals; the constants involved
(0.5, 0.15, ...) and every arithmetic step the claims touch are exact in
both representations.  Python dicts that serve as JSON-like records are
modelled as association lists with string keys.
-/

namespace Sgnl

/-! ### Python string primitives -/

/-- Characters that are awkward to write literally are built by code point:
backtick (96) and apostrophe (39). -/
def btick : Char := Char.ofNat 96

def apos : Char := Char.ofNat 39

/-- `needle` is a leading segment of `hay` (character lists). -/
def leadsWith : List Char → List Char → Bool
  | [], _ => true
  | _ :: _, [] => false
  | a :: as, b :: bs => a == b && leadsWith as bs

/-- `needle` occurs as a contiguous segment of `hay` — the embedding of the
Python `needle in hay` test on strings. -/
def hasSeg : List Char → List Char → Bool
  | [], _ => true
  | _ :: _, [] => false
  | n, c :: t => leadsWith n (c :: t) || hasSeg n t

/-- The Python substring test `needle in hay`. -/
def substrIn (needle hay : String) : Bool :=
  hasSeg needle.data hay.data

/-- Python `str.strip()` on a character list: whitespace removed from both
ends. -/
def pyStripL (l : List Char) : List Char :=
  ((l.dropWhile Char.isWhitespace).reverse.dropWhile Char.isWhitespace).reverse

/-- Python `str.lower()` on a character list (the engine only lower-cases
ASCII pattern text). -/
def lowerData (s : String) : List Char :=
  s.data.map Char.toLower

/-- Python `str.split()` with no argument: split on runs of whitespace and
drop empty fields.  Each step consumes at least one character, so the
length of the input is enough fuel. -/
def pySplitGo : ℕ → List Char → List String
  | 0, _ => []
  | _ + 1, [] => []
  | fuel + 1, c :: cs =>
    if c.isWhitespace then pySplitGo fuel cs
    else
      let w := (c :: cs).takeWhile (fun d => !d.isWhitespace)
      String.mk w :: pySplitGo fuel ((c :: cs).drop w.length)

/-- Python `str.split()` with no argument. -/
def pySplit (s : String) : List String :=
  pySplitGo s.data.length s.data

/-- Python `str.replace(old, new)` for non-empty `old`: every occurrence
replaced, scanning left to right without overlap. -/
def replaceAllL (old new : List Char) : ℕ → List Char → List Char
  | 0, l => l
  | _ + 1, [] => []
  | fuel + 1, c :: cs =>
    if leadsWith old (c :: cs) then
      new ++ replaceAllL old new fuel ((c :: cs).drop old.length)
    else
      c :: replaceAllL old new fuel cs

/-! ### `urllib.parse.urlparse`, the part `_extract_domain` uses

`urlparse(url).netloc`: first split off a scheme (a leading run of
scheme characters ending in a colon, starting with a letter); then, when
the remainder opens with `//`, the netloc runs up to the next `/`, `?`
or `#`.  `urlsplit` raises `ValueError` only when the netloc has an
unmatched square bracket (invalid IPv6 literal); every other string
parses. -/

def isSchemeChar (c : Char) : Bool :=
  c.isAlpha || c.isDigit || c == '+' || c == '-' || c == '.'

/-- Drop a valid `scheme:` from the front of the URL, as `urlsplit` does:
the text before the first colon must be non-empty, start with a letter and
use only scheme characters. -/
def dropSchemeL (l : List Char) : List Char :=
  let pre := l.takeWhile (fun c => !(c == ':'))
  if pre.length < l.length ∧ pre ≠ [] ∧ (pre.head?.any Char.isAlpha)
      ∧ pre.all isSchemeChar then
    l.drop (pre.length + 1)
  else
    l

/-- The netloc component of `urlparse`. -/
def urlparseNetlocL (l : List Char) : List Char :=
  let rest := dropSchemeL l
  if leadsWith ['/', '/'] rest then
    (rest.drop 2).takeWhile (fun c => !(c == '/') && !(c == '?') && !(c == '#'))
  else
    []

/-- The netloc component of `urlparse`, as a string. -/
def urlparseNetloc (url : String) : String :=
  String.mk (urlparseNetlocL url.data)

/-- `urlsplit` raises `ValueError` exactly when the netloc holds a `[`
without `]` or a `]` without `[`. -/
def netlocRaisesL (netloc : List Char) : Bool :=
  (netloc.contains '[' && !netloc.contains ']')
    || (netloc.contains ']' && !netloc.contains '[')

/-- `ContentExtractor._extract_domain`: `urlparse(url).netloc.replace("www.", "")`
inside a bare try/except returning `"unknown"`.  The except branch fires
exactly when `urlparse` raises, i.e. on an unmatched bracket in the netloc;
note that `str.replace` removes every occurrence of `www.`, not only a
leading one. -/
def _extract_domain (url : String) : String :=
  let netloc := urlparseNetlocL url.data
  if netlocRaisesL netloc then "unknown"
  else String.mk (replaceAllL "www.".data [] netloc.length netloc)

/-! ### Metric adapters (`calculate_density`, `calculate_depid_density`,
`calculate_readability_scores`)

The external libraries are modelled as oracles: an availability flag for
the import probe, and a function returning `Except` to stand for a call
that may raise.  The adapters never let either escape. -/

/-- `calculate_density`: guard on short text, neutral `0.5` default when the
library is missing or the call raises, clamp of the raw density otherwise. -/
def calculate_density (avail : Bool) (cpidrF : String → Except String ℚ)
    (text : String) : ℚ :=
  if text = "" ∨ (pyStripL text.data).length < 50 then 0
  else if !avail then 0.5
  else match cpidrF text with
    | .ok density => max 0 (min 1 density)
    | .error _ => 0.5

/-- `calculate_depid_density`: guard on short text, absence (`none`) when the
library is missing or the call raises, clamp of the raw density otherwise. -/
def calculate_depid_density (avail : Bool) (depidF : String → Except String ℚ)
    (text : String) : Option ℚ :=
  if text = "" ∨ (pyStripL text.data).length < 50 then none
  else if !avail then none
  else match depidF text with
    | .ok density => some (max 0 (min 1 density))
    | .error _ => none

/-- `calculate_readability_scores`: guard on short text, empty map when the
library is missing or any of the five `textstat` calls raises; otherwise the
five fixed keys.  The oracle returns the five raw scores at once, standing
for the five calls under the single `try`. -/
def calculate_readability_scores (avail : Bool)
    (textstatF : String → Except String (ℚ × ℚ × ℚ × ℚ × ℚ))
    (text : String) : List (String × ℚ) :=
  if text = "" ∨ (pyStripL text.data).length < 50 then []
  else if !avail then []
  else match textstatF text with
    | .ok (fre, fkg, gf, ari, cli) =>
        [("flesch_reading_ease", fre), ("flesch_kincaid_grade", fkg),
         ("gunning_fog", gf), ("automated_readability_index", ari),
         ("coleman_liau_index", cli)]
    | .error _ => []

/-! ### Density combiner (`calculate_combined_density`)

The env-var weight lookups (`CPIDR_WEIGHT` etc. with defaults
`0.5 / 0.3 / 0.2`) are modelled as explicit parameters plus a wrapper
applying the defaults. -/

def CPIDR_WEIGHT : ℚ := 0.5

def DEPID_WEIGHT : ℚ := 0.3

def READABILITY_WEIGHT : ℚ := 0.2

/-- `calculate_combined_density` with the weights passed explicitly.
The Python guard `readability and "flesch_reading_ease" in readability`
is the lookup being some: a successful lookup forces the dict non-empty. -/
def calculate_combined_density (w_cpidr w_depid w_read : ℚ)
    (cpidr_density : ℚ) (depid_density : Option ℚ)
    (readability : List (String × ℚ)) : ℚ :=
  let total_weight := w_cpidr + w_depid + w_read
  let combined := cpidr_density * w_cpidr
  let step1 : ℚ × ℚ :=
    match depid_density with
    | some d => (combined + d * w_depid, total_weight)
    | none => (combined, total_weight - w_depid)
  let step2 : ℚ × ℚ :=
    match readability.lookup "flesch_reading_ease" with
    | some flesch_ease =>
        (step1.1 + (max 0 (min 1 ((90 - flesch_ease) / 90))) * w_read, step1.2)
    | none => (step1.1, step1.2 - w_read)
  if step2.2 > 0 then max 0 (min 1 (step2.1 / step2.2))
  else cpidr_density

/-- `calculate_combined_density` at the default weights. -/
def calculate_combined_densityD (cpidr_density : ℚ) (depid_density : Option ℚ)
    (readability : List (String × ℚ)) : ℚ :=
  calculate_combined_density CPIDR_WEIGHT DEPID_WEIGHT READABILITY_WEIGHT
    cpidr_density depid_density readability

/-! ### Regex counters used by `_calculate_signal_score`

`re.findall` scans left to right; at each position the alternatives are
tried in pattern order, and a match resumes scanning after its end.  Each
alternative below is literal text, or literal text around a character
class whose greedy run is bounded by the very character that must follow,
so greedy matching is exact.  The scanners consume at least one character
per step; the fuel is the input length, which therefore never runs out. -/

/-- Try a list of literal alternatives in order; on success return the
rest of the input after the matched literal. -/
def tryLits (lits : List (List Char)) (l : List Char) : Option (List Char) :=
  match lits with
  | [] => none
  | lit :: more => if leadsWith lit l then some (l.drop lit.length) else tryLits more l

/-- Generic non-overlapping scan: count matches of `step`, resuming after a
match, else advancing one character. -/
def scanCount (step : List Char → Option (List Char)) : ℕ → List Char → ℕ
  | 0, _ => 0
  | _ + 1, [] => 0
  | fuel + 1, c :: cs =>
    match step (c :: cs) with
    | some rest => 1 + scanCount step fuel rest
    | none => scanCount step fuel cs

/-- One alternative of the code regex
`` ``` | `[^`]+` | def | class | function | const | import `` (the keyword
alternatives carry a trailing space in the pattern). -/
def matchCodeAt (l : List Char) : Option (List Char) :=
  if leadsWith [btick, btick, btick] l then some (l.drop 3)
  else
    match l with
    | c :: rest =>
      if c == btick then
        let run := rest.takeWhile (· ≠ btick)
        let rest2 := rest.drop run.length
        if run ≠ [] then
          match rest2 with
          | c2 :: r2 => if c2 == btick then some r2 else tryLitsKw (c :: rest)
          | [] => tryLitsKw (c :: rest)
        else tryLitsKw (c :: rest)
      else tryLitsKw (c :: rest)
    | [] => none
where
  tryLitsKw (l : List Char) : Option (List Char) :=
    tryLits ["def ".data, "class ".data, "function ".data,
             "const ".data, "import ".data] l

/-- `re.findall` count for the code-indicator regex. -/
def countCodeIndicators (content : String) : ℕ :=
  scanCount matchCodeAt content.length content.data

/-- One alternative of the reference regex
`\[\d+\]|arxiv\.|doi\.org|et al\.|figure \d|table \d` (applied to the
lower-cased text, which is equivalent to the `re.I` flag here). -/
def matchRefAt (l : List Char) : Option (List Char) :=
  match l with
  | '[' :: rest =>
    let ds := rest.takeWhile Char.isDigit
    if ds ≠ [] then
      match rest.drop ds.length with
      | ']' :: r2 => some r2
      | _ => matchRefLit ('[' :: rest)
    else matchRefLit ('[' :: rest)
  | l => matchRefLit l
where
  matchRefLit (l : List Char) : Option (List Char) :=
    match tryLits ["arxiv.".data, "doi.org".data, "et al.".data] l with
    | some r => some r
    | none =>
      if leadsWith "figure ".data l ∧ (l.drop 7).head?.any Char.isDigit then
        some (l.drop 8)
      else if leadsWith "table ".data l ∧ (l.drop 6).head?.any Char.isDigit then
        some (l.drop 7)
      else none

/-- `re.findall` count for the reference regex. -/
def countRefIndicators (content : String) : ℕ :=
  scanCount matchRefAt (lowerData content).length (lowerData content)

/-- Match a spam pattern — literal words separated by `\s+` — at the head of
the input.  The words start with non-whitespace characters, so the greedy
whitespace run is exact. -/
def matchWordsAt : List (List Char) → List Char → Bool
  | [], _ => true
  | [w], l => leadsWith w l
  | w :: ws, l =>
    leadsWith w l &&
      (let after := l.drop w.length
       let sp := after.takeWhile Char.isWhitespace
       sp ≠ [] && matchWordsAt ws (after.drop sp.length))

/-- `re.search`: the pattern matches at some position of the input. -/
def searchWords (ws : List (List Char)) : List Char → Bool
  | [] => matchWordsAt ws []
  | c :: t => matchWordsAt ws (c :: t) || searchWords ws t

/-- `ContentExtractor.SPAM_PATTERNS`, each `\s+`-separated pattern as its
list of literal words, in declaration order. -/
def SPAM_PATTERNS : List (List String) :=
  [["subscribe", "to", "our", "newsletter"],
   ["sign", "up", "for", "free"],
   ["limited", "time", "offer"],
   ["click", "here", "to", "buy"],
   ["affiliate", "link"],
   ["sponsored", "content"],
   ["you", "won" ++ String.singleton apos ++ "t", "believe"],
   ["shocking"],
   ["this", "one", "trick"]]

/-- Number of spam patterns with a match in the text (each pattern counts at
most once); patterns are lower-case, so matching the lower-cased content
embeds the `re.I` search. -/
def spamCount (content : String) : ℕ :=
  (SPAM_PATTERNS.filter
    (fun ws => searchWords (ws.map String.data) (lowerData content))).length

/-- One alternative of the structural regex
`\n#{1,3}\s|\n\*\s|\n\d+\.\s|\n-\s`: every alternative opens with a
newline; `#{1,3}\s` matches only when the full run of `#` has length one
to three and is followed by whitespace. -/
def matchStructAt (l : List Char) : Option (List Char) :=
  match l with
  | '\n' :: rest =>
    let hs := rest.takeWhile (· == '#')
    if 1 ≤ hs.length ∧ hs.length ≤ 3 ∧ (rest.drop hs.length).head?.any Char.isWhitespace then
      some (rest.drop (hs.length + 1))
    else
      match rest with
      | '*' :: c :: r => if c.isWhitespace then some r else none
      | '-' :: c :: r => if c.isWhitespace then some r else none
      | d :: _ =>
        if d.isDigit then
          let ds := rest.takeWhile Char.isDigit
          match rest.drop ds.length with
          | '.' :: c :: r => if c.isWhitespace then some r else none
          | _ => none
        else none
      | [] => none
  | _ => none

/-- `re.findall` count for the structural-marker regex. -/
def countStructuralMarkers (content : String) : ℕ :=
  scanCount matchStructAt content.length content.data

/-- `ContentExtractor.HIGH_TRUST_DOMAINS` in declaration order; Python 3
dicts iterate in insertion order, so the `for ... break` scan is a linear
first-match lookup over this list. -/
def HIGH_TRUST_DOMAINS : List (String × ℚ) :=
  [("arxiv.org", 1.15), ("github.com", 1.10), ("openai.com", 1.12),
   ("deepmind.com", 1.12), ("research.google", 1.12), ("anthropic.com", 1.10),
   ("huggingface.co", 1.08), ("pytorch.org", 1.08), ("tensorflow.org", 1.08),
   ("nature.com", 1.15), ("science.org", 1.15), ("acm.org", 1.10),
   ("ieee.org", 1.10), ("distill.pub", 1.15), ("lilianweng.github.io", 1.12),
   ("colah.github.io", 1.12), ("karpathy.github.io", 1.12),
   ("martin.kleppmann.com", 1.10), ("jvns.ca", 1.08),
   ("rachelbythebay.com", 1.08), ("danluu.com", 1.10), ("brandur.org", 1.08)]

/-- `ContentExtractor._calculate_signal_score`, the straight-line sequence of
the seven factors followed by the final clamp. -/
def _calculate_signal_score (content url title : String) : ℚ :=
  let score : ℚ := 0.5
  let word_count := (pySplit content).length
  let score :=
    if word_count < 200 then score - 0.15
    else if word_count < 500 then score - 0.05
    else if word_count < 1000 then score + 0.05
    else if word_count < 3000 then score + 0.10
    else if word_count < 5000 then score + 0.12
    else score + 0.15
  let domain := _extract_domain url
  let score :=
    match HIGH_TRUST_DOMAINS.find? (fun p => substrIn p.1 domain) with
    | some p => score * p.2
    | none => score
  let code_indicators := countCodeIndicators content
  let score :=
    if code_indicators > 0 then score + min 0.15 ((code_indicators : ℚ) * 0.02)
    else score
  let ref_indicators := countRefIndicators content
  let score :=
    if ref_indicators > 0 then score + min 0.10 ((ref_indicators : ℚ) * 0.015)
    else score
  let spam_count := spamCount content
  let score := if spam_count > 0 then score - (spam_count : ℚ) * 0.10 else score
  let words := pySplitGo (lowerData content).length (lowerData content)
  let score :=
    if words ≠ [] then
      let unique_ratio : ℚ := (words.eraseDups.length : ℚ) / (words.length : ℚ)
      if unique_ratio > 0.5 then score + 0.05
      else if unique_ratio < 0.3 then score - 0.05
      else score
    else score
  let structural_patterns := countStructuralMarkers content
  let score := if structural_patterns > 3 then score + 0.05 else score
  max 0 (min 1 score)

/-! ### Report model and the orchestrator (`extract_from_url`)

The result dicts are association lists over a small value type.  Keys keep
source order. -/

/-- A JSON-like value in a report dict. -/
inductive JVal where
  | s (v : String)
  | num (v : ℚ)
  | optnum (v : Option ℚ)
  | map (v : List (String × ℚ))
  deriving Repr, DecidableEq

/-- A report dict: ordered association list with string keys. -/
def Report := List (String × JVal)

/-- The key set (in order) of a report. -/
def reportKeys (r : Report) : List String := r.map Prod.fst

/-- Look a key up in a report. -/
def reportGet (key : String) (r : Report) : Option JVal :=
  List.lookup key r

/-- Round to `k` decimal places.  Python `round` uses round-half-even; the
difference shows only at exact ties, which no claim touches. -/
def roundTo (k : ℕ) (q : ℚ) : ℚ :=
  (⌊q * 10 ^ k + 1 / 2⌋ : ℚ) / 10 ^ k

/-- `ContentExtractor._error_response`. -/
def _error_response (url error : String) : Report :=
  [("url", .s url),
   ("title", .s "Extraction Failed"),
   ("content", .s ("Error: " ++ error)),
   ("source", .s (_extract_domain url)),
   ("length", .num 0),
   ("signal_score", .num 0),
   ("density_score", .num 0),
   ("error", .s error)]

/-- `ContentExtractor._extract_title_fallback`: `re.search` for
`<title[^>]*>([^<]+)</title>` (case-insensitive on the tag names), returning
the stripped group.  `[^>]*` runs exactly to the next `>` and `[^<]+`
exactly to the next `<`, so greedy matching is exact. -/
def _extract_title_fallback (html : String) : Option String :=
  go html.data.length html.data
where
  lowEq (a b : Char) : Bool := a.toLower == b.toLower
  leadsWithCI : List Char → List Char → Bool
    | [], _ => true
    | _ :: _, [] => false
    | a :: as, b :: bs => lowEq a b && leadsWithCI as bs
  tryAt (l : List Char) : Option String :=
    if leadsWithCI "<title".data l then
      let afterTag := l.drop 6
      let attrs := afterTag.takeWhile (· ≠ '>')
      match afterTag.drop attrs.length with
      | '>' :: rest =>
        let grp := rest.takeWhile (· ≠ '<')
        if grp ≠ [] ∧ leadsWithCI "</title>".data (rest.drop grp.length) then
          some (String.mk (pyStripL grp))
        else none
      | _ => none
    else none
  go : ℕ → List Char → Option String
    | 0, _ => none
    | _ + 1, [] => none
    | fuel + 1, c :: cs =>
      match tryAt (c :: cs) with
      | some t => some t
      | none => go fuel cs

/-- The collaborators and optional libraries `extract_from_url` drives,
each fallible call modelled as an `Except` so that a raised exception is a
`.error` carrying `str(e)`. -/
structure Collab where
  fetch : String → Except String (Option String)
  extract : String → Except String (Option String)
  metadata : String → Except String (Option (Option String))
  ideadensityAvailable : Bool
  textstatAvailable : Bool
  cpidrF : String → Except String ℚ
  depidF : String → Except String ℚ
  textstatF : String → Except String (ℚ × ℚ × ℚ × ℚ × ℚ)

/-- Python truthiness `title or d` on an optional string. -/
def orElseStr (t : Option String) (d : String) : String :=
  match t with
  | some s => if s = "" then d else s
  | none => d

/-- `ContentExtractor.extract_from_url`: fetch, extract, score, assemble;
every failure — a collaborator raising (`.error`), a falsy fetch result or
a falsy extraction — becomes `_error_response`.  The combined density and
the density threshold are computed only for logging and the skip decision
and do not enter the returned dict, so they do not appear here. -/
def extract_from_url (c : Collab) (url : String) : Report :=
  match c.fetch url with
  | .error e => _error_response url e
  | .ok none => _error_response url "Failed to fetch page"
  | .ok (some html) =>
    if html = "" then _error_response url "Failed to fetch page"
    else
      match c.extract html with
      | .error e => _error_response url e
      | .ok none => _error_response url "No content extracted"
      | .ok (some extracted) =>
        if extracted = "" then _error_response url "No content extracted"
        else
          match c.metadata html with
          | .error e => _error_response url e
          | .ok md =>
            let title : Option String :=
              match md with
              | some t => t
              | none => _extract_title_fallback html
            let signal_score :=
              _calculate_signal_score extracted url (orElseStr title "")
            let cpidr_score :=
              calculate_density c.ideadensityAvailable c.cpidrF extracted
            let depid_score :=
              calculate_depid_density c.ideadensityAvailable c.depidF extracted
            let readability_scores :=
              calculate_readability_scores c.textstatAvailable c.textstatF extracted
            [("url", .s url),
             ("title", .s (orElseStr title "Untitled")),
             ("content", .s extracted),
             ("source", .s (_extract_domain url)),
             ("length", .num (extracted.length : ℚ)),
             ("signal_score", .num (roundTo 2 signal_score)),
             ("density_score", .num (roundTo 3 cpidr_score)),
             ("depid_density", .optnum (depid_score.map (roundTo 3))),
             ("readability_score", .map readability_scores)]

/-- The key list of a successful report, in source order. -/
def successKeys : List String :=
  ["url", "title", "content", "source", "length",
   "signal_score", "density_score", "depid_density", "readability_score"]

/-- The key list of a degraded report, in source order. -/
def errorKeys : List String :=
  ["url", "title", "content", "source", "length",
   "signal_score", "density_score", "error"]

/-! ### Structural heuristic analyzer (guards) -/

/-- One structural report: score, headline reason, ordered adjustments. -/
structure StructureReport where
  score : ℤ
  reason : String
  adjustments : List (ℤ × String)
  deriving Repr, DecidableEq

/-- Modelled from the spec: `HeuristicAnalyzer.calculate_structure_score`
lives in `app/services/analyzer.py`, which is not under `src/` — only its
tests are.  Spec 4.4: a guard returns score `0` with reason "Empty or too
short content" when the HTML is shorter than the minimum length; a parse
guard returns the fixed score `30` with reason "Failed to parse HTML" when
the HTML cannot be parsed into a DOM; otherwise the sequential checklist
runs and the final score is `clamp(base + sum of deltas, 0, 100)`.  The
DOM type, the parser, the minimum length, the base and the checklist are
parameters, since the spec fixes only the two guards verified here. -/
def calculate_structure_score {Dom : Type} (parseDom : String → Option Dom)
    (minLen : ℕ) (base : ℤ) (checks : Dom → String → List (ℤ × String))
    (html topic : String) : StructureReport :=
  if html.length < minLen then
    { score := 0, reason := "Empty or too short content", adjustments := [] }
  else
    match parseDom html with
    | none => { score := 30, reason := "Failed to parse HTML", adjustments := [] }
    | some dom =>
      let adjustments := checks dom topic
      { score := max 0 (min 100 (base + (adjustments.map Prod.fst).sum)),
        reason := "", adjustments := adjustments }

/-! ### Decomposition of `_calculate_signal_score` into its seven factors

These definitions name the contribution of each factor, read off the same
source lines; the decomposition theorem below proves they reassemble the
sequential definition, which pins the order the factors apply in. -/

/-- The additive length-bucket adjustment (factor 1). -/
def lengthDelta (content : String) : ℚ :=
  let word_count := (pySplit content).length
  if word_count < 200 then -0.15
  else if word_count < 500 then -0.05
  else if word_count < 1000 then 0.05
  else if word_count < 3000 then 0.10
  else if word_count < 5000 then 0.12
  else 0.15

/-- The multiplicative domain-reputation factor (factor 2): the factor of
the first trusted domain occurring in the URL domain, in declaration
order, and `1` when none matches. -/
def domainFactor (url : String) : ℚ :=
  match HIGH_TRUST_DOMAINS.find? (fun p => substrIn p.1 (_extract_domain url)) with
  | some p => p.2
  | none => 1

/-- The additive code-density contribution (factor 3). -/
def codeTerm (content : String) : ℚ :=
  if countCodeIndicators content > 0 then
    min 0.15 ((countCodeIndicators content : ℚ) * 0.02)
  else 0

/-- The additive reference-density contribution (factor 4). -/
def refTerm (content : String) : ℚ :=
  if countRefIndicators content > 0 then
    min 0.10 ((countRefIndicators content : ℚ) * 0.015)
  else 0

/-- The spam penalty, subtracted (factor 5). -/
def spamTerm (content : String) : ℚ :=
  if spamCount content > 0 then (spamCount content : ℚ) * 0.10 else 0

/-- The vocabulary-diversity adjustment (factor 6). -/
def vocabTerm (content : String) : ℚ :=
  let words := pySplitGo (lowerData content).length (lowerData content)
  if words ≠ [] then
    let unique_ratio : ℚ := (words.eraseDups.length : ℚ) / (words.length : ℚ)
    if unique_ratio > 0.5 then 0.05
    else if unique_ratio < 0.3 then -0.05
    else 0
  else 0

/-- The structural-markup bonus (factor 7). -/
def structTerm (content : String) : ℚ :=
  if countStructuralMarkers content > 3 then 0.05 else 0

/-- The running score right after the length adjustment: `0.5` plus the
length bucket. -/
def scoreAfterLength (content : String) : ℚ :=
  0.5 + lengthDelta content

/-- The running score right after the domain-reputation factor. -/
def scoreAfterDomain (content url : String) : ℚ :=
  scoreAfterLength content * domainFactor url

/-- Rewriting an additive factor step out of the running-score chain. -/
theorem if_add_term (c : Prop) [Decidable c] (s x : ℚ) :
    (if c then s + x else s) = s + (if c then x else 0) := by
  split <;> ring

/-- Rewriting a subtractive factor step out of the running-score chain. -/
theorem if_sub_term (c : Prop) [Decidable c] (s x : ℚ) :
    (if c then s - x else s) = s - (if c then x else 0) := by
  split <;> ring

/-- The length if-chain over a neutral `0.5` is `0.5` plus the bucket. -/
theorem length_chain (wc : ℕ) :
    (if wc < 200 then (0.5 : ℚ) - 0.15
     else if wc < 500 then (0.5 : ℚ) - 0.05
     else if wc < 1000 then (0.5 : ℚ) + 0.05
     else if wc < 3000 then (0.5 : ℚ) + 0.10
     else if wc < 5000 then (0.5 : ℚ) + 0.12
     else (0.5 : ℚ) + 0.15) =
    0.5 + (if wc < 200 then (-0.15 : ℚ)
     else if wc < 500 then (-0.05 : ℚ)
     else if wc < 1000 then (0.05 : ℚ)
     else if wc < 3000 then (0.10 : ℚ)
     else if wc < 5000 then (0.12 : ℚ)
     else (0.15 : ℚ)) := by
  split_ifs <;> norm_num

/-- The vocabulary step over a running score is the score plus the
vocabulary adjustment. -/
theorem vocab_chain (s : ℚ) (words : List String) :
    (if words ≠ [] then
      (if ((words.eraseDups.length : ℚ) / (words.length : ℚ)) > 0.5 then s + 0.05
       else if ((words.eraseDups.length : ℚ) / (words.length : ℚ)) < 0.3 then s - 0.05
       else s)
     else s) =
    s + (if words ≠ [] then
      (if ((words.eraseDups.length : ℚ) / (words.length : ℚ)) > 0.5 then (0.05 : ℚ)
       else if ((words.eraseDups.length : ℚ) / (words.length : ℚ)) < 0.3 then (-0.05 : ℚ)
       else 0)
     else 0) := by
  split_ifs <;> ring

/-! ### Claim theorems -/

/-- The collaborator bundle used to witness the failure path: the fetch
raises, everything else is inert. -/
def failingCollab : Collab where
  fetch := fun _ => .error "Test error"
  extract := fun _ => .ok none
  metadata := fun _ => .ok none
  ideadensityAvailable := false
  textstatAvailable := false
  cpidrF := fun _ => .ok 0
  depidF := fun _ => .ok 0
  textstatF := fun _ => .ok (0, 0, 0, 0, 0)

/-- C1 (counterexample): the degraded report does NOT have the same key
set as a successful report — `depid_density` (and likewise
`readability_score`) is absent from `_error_response`, so the claimed
shape equality fails at this concrete url and message. -/
theorem error_report_shape_counterexample :
    ¬ ("depid_density" ∈ reportKeys (_error_response "https://example.com" "Test error")) := by
  decide

/-- C1 (amended): whenever `extract_from_url` returns a degraded report, that
report has exactly the keys url, title, content, source, length,
signal_score, density_score and error — without `depid_density` and
`readability_score` — with `content = "Error: " ++ msg`, both numeric
scores `0.0`, and the error field holding the message. -/
theorem extract_from_url_failure_shape (c : Collab) (url msg : String)
    (h : extract_from_url c url = _error_response url msg) :
    reportKeys (extract_from_url c url) = errorKeys ∧
    reportGet "content" (extract_from_url c url) = some (.s ("Error: " ++ msg)) ∧
    reportGet "signal_score" (extract_from_url c url) = some (.num 0) ∧
    reportGet "density_score" (extract_from_url c url) = some (.num 0) ∧
    reportGet "error" (extract_from_url c url) = some (.s msg) := by
  rw [h]
  exact ⟨rfl, rfl, rfl, rfl, rfl⟩

/-- C1 (witness): the failure shape at a concrete collaborator whose fetch
raises `"Test error"`. -/
theorem extract_from_url_failure_shape_witness :
    reportKeys (extract_from_url failingCollab "https://example.com") = errorKeys ∧
    reportGet "content" (extract_from_url failingCollab "https://example.com") =
      some (.s ("Error: " ++ "Test error")) ∧
    reportGet "signal_score" (extract_from_url failingCollab "https://example.com") =
      some (.num 0) ∧
    reportGet "density_score" (extract_from_url failingCollab "https://example.com") =
      some (.num 0) ∧
    reportGet "error" (extract_from_url failingCollab "https://example.com") =
      some (.s "Test error") :=
  extract_from_url_failure_shape failingCollab "https://example.com" "Test error" rfl

/-- C2 (code bug): evaluating the embedded `_extract_domain` at the failing
input.  `urlparse("not-a-url")` succeeds with an empty netloc, so the code
returns `""`, never reaching the except branch — while the spec and the
repository test `test_extract_domain_invalid_url` expect `"unknown"`.  The
positive example of the claim does hold. -/
theorem extract_domain_not_a_url_eval :
    _extract_domain "not-a-url" = "" ∧
    _extract_domain "https://www.example.com/x" = "example.com" :=
  ⟨by decide, by decide⟩

/-- C3: `extract_from_url` is a total function of its collaborator outcomes:
whatever the fetch, extraction or metadata stages do — raise (`.error`),
return nothing, or succeed — the caller receives a well-formed report,
either a degraded `_error_response` carrying the error message or a
success report with the full key set. -/
theorem extract_from_url_always_wellformed (c : Collab) (url : String) :
    (∃ msg, extract_from_url c url = _error_response url msg) ∨
      reportKeys (extract_from_url c url) = successKeys := by
  rcases hf : c.fetch url with e | _ | html <;>
    simp only [extract_from_url, hf]
  · exact Or.inl ⟨e, rfl⟩
  · exact Or.inl ⟨"Failed to fetch page", rfl⟩
  · by_cases hh : html = ""
    · rw [if_pos hh]
      exact Or.inl ⟨"Failed to fetch page", rfl⟩
    · rw [if_neg hh]
      rcases hx : c.extract html with e | _ | extracted <;>
        simp only [hx]
      · exact Or.inl ⟨e, rfl⟩
      · exact Or.inl ⟨"No content extracted", rfl⟩
      · by_cases he : extracted = ""
        · rw [if_pos he]
          exact Or.inl ⟨"No content extracted", rfl⟩
        · rw [if_neg he]
          rcases hm : c.metadata html with e | md <;>
            simp only [hm]
          · exact Or.inl ⟨e, rfl⟩
          · exact Or.inr rfl

/-- C4: on empty text or trimmed length below 50, the three adapters
short-circuit — density `0.0`, dependency density `none`, readability map
empty — for every availability flag and every oracle. -/
theorem adapters_short_text_guard (ideAvail tsAvail : Bool)
    (cpidrF depidF : String → Except String ℚ)
    (textstatF : String → Except String (ℚ × ℚ × ℚ × ℚ × ℚ))
    (t : String) (h : t = "" ∨ (pyStripL t.data).length < 50) :
    calculate_density ideAvail cpidrF t = 0 ∧
    calculate_depid_density ideAvail depidF t = none ∧
    calculate_readability_scores tsAvail textstatF t = [] := by
  unfold calculate_density calculate_depid_density calculate_readability_scores
  rw [if_pos h, if_pos h, if_pos h]
  exact ⟨rfl, rfl, rfl⟩

/-- C4 (witness): the guard at the concrete ten-character text `"short"`,
with both libraries available. -/
theorem adapters_short_text_guard_witness :
    calculate_density true (fun _ => .ok 1) "short" = 0 ∧
    calculate_depid_density true (fun _ => .ok 1) "short" = none ∧
    calculate_readability_scores true (fun _ => .ok (1, 1, 1, 1, 1)) "short" = [] :=
  adapters_short_text_guard true true (fun _ => .ok 1) (fun _ => .ok 1)
    (fun _ => .ok (1, 1, 1, 1, 1)) "short" (by decide)

/-- C5: the signal scorer is a total function (by construction) and its
result lies in `[0, 1]` for every content, url and title, the final step
being the clamp `max 0 (min 1 score)`. -/
theorem signal_score_bounded (content url title : String) :
    0 ≤ _calculate_signal_score content url title ∧
      _calculate_signal_score content url title ≤ 1 := by
  simp only [_calculate_signal_score]
  exact ⟨le_max_left 0 _, max_le zero_le_one (min_le_left 1 _)⟩

/-- C6: with `depid = none` and no `flesch_reading_ease` key, the default
weight combiner returns the cpidr density unchanged whenever it lies in
`[0, 1]`: the surviving weight is `0.5`, so `cpidr * 0.5 / 0.5` clamps to
`cpidr` itself. -/
theorem combiner_degenerate_identity (cpidr : ℚ) (readability : List (String × ℚ))
    (h0 : 0 ≤ cpidr) (h1 : cpidr ≤ 1)
    (hf : readability.lookup "flesch_reading_ease" = none) :
    calculate_combined_densityD cpidr none readability = cpidr := by
  simp only [calculate_combined_densityD, calculate_combined_density,
    CPIDR_WEIGHT, DEPID_WEIGHT, READABILITY_WEIGHT, hf]
  rw [if_pos (by norm_num)]
  rw [show (cpidr * 0.5 / (0.5 + 0.3 + 0.2 - 0.3 - 0.2) : ℚ) = cpidr by ring]
  rw [min_eq_right h1, max_eq_right h0]

/-- C6 (witness): the degenerate combiner at `cpidr = 0.37` with a non-empty
readability map lacking the `flesch_reading_ease` key. -/
theorem combiner_degenerate_identity_witness :
    calculate_combined_densityD 0.37 none [("gunning_fog", 8)] = 0.37 :=
  combiner_degenerate_identity 0.37 [("gunning_fog", 8)]
    (by norm_num) (by norm_num) rfl

/-- C7: the default-weight density combiner is deterministic — equal inputs
give equal outputs — and its result lies in `[0, 1]`: every surviving
weight combination (`1`, `0.8`, `0.7`, `0.5`) is positive, so the clamped
branch always runs. -/
theorem combiner_deterministic_in_unit_interval (c₁ c₂ : ℚ)
    (d₁ d₂ : Option ℚ) (r₁ r₂ : List (String × ℚ))
    (hc0 : 0 ≤ c₁) (hc1 : c₁ ≤ 1)
    (hd : ∀ x, d₁ = some x → 0 ≤ x ∧ x ≤ 1)
    (hec : c₁ = c₂) (hed : d₁ = d₂) (her : r₁ = r₂) :
    calculate_combined_densityD c₁ d₁ r₁ = calculate_combined_densityD c₂ d₂ r₂ ∧
    0 ≤ calculate_combined_densityD c₁ d₁ r₁ ∧
    calculate_combined_densityD c₁ d₁ r₁ ≤ 1 := by
  subst hec hed her
  refine ⟨rfl, ?_⟩
  simp only [calculate_combined_densityD, calculate_combined_density,
    CPIDR_WEIGHT, DEPID_WEIGHT, READABILITY_WEIGHT]
  rcases d₁ with _ | d <;>
    rcases hl : r₁.lookup "flesch_reading_ease" with _ | f <;>
    simp only [hl] <;>
    rw [if_pos (by norm_num)] <;>
    exact ⟨le_max_left 0 _, max_le zero_le_one (min_le_left 1 _)⟩

/-- C7 (witness): the combiner at cpidr `0.4`, depid `0.6` and flesch ease
`45`, all inputs duplicated. -/
theorem combiner_deterministic_in_unit_interval_witness :
    (calculate_combined_densityD 0.4 (some 0.6) [("flesch_reading_ease", 45)] =
      calculate_combined_densityD 0.4 (some 0.6) [("flesch_reading_ease", 45)]) ∧
    0 ≤ calculate_combined_densityD 0.4 (some 0.6) [("flesch_reading_ease", 45)] ∧
    calculate_combined_densityD 0.4 (some 0.6) [("flesch_reading_ease", 45)] ≤ 1 :=
  combiner_deterministic_in_unit_interval 0.4 0.4 (some 0.6) (some 0.6)
    [("flesch_reading_ease", 45)] [("flesch_reading_ease", 45)]
    (by norm_num) (by norm_num)
    (fun x hx => by cases hx; exact ⟨by norm_num, by norm_num⟩) rfl rfl rfl

/-- C8: the sequential signal scorer factors algebraically as
`clamp((0.5 + lengthDelta) * domainFactor + additive terms)`: the
domain-reputation factor multiplies the accumulated score after the length
adjustment (never the bare `0.5`), it is the factor of the first matching
trusted domain in declaration order (`List.find?`), and exactly one factor
— `1` when no domain matches — applies per call, before every additive
factor. -/
theorem signal_score_domain_boost_ordering (content url title : String) :
    _calculate_signal_score content url title =
      max 0 (min 1 ((0.5 + lengthDelta content) * domainFactor url
        + codeTerm content + refTerm content - spamTerm content
        + vocabTerm content + structTerm content)) := by
  simp only [_calculate_signal_score, lengthDelta, domainFactor, codeTerm,
    refTerm, spamTerm, vocabTerm, structTerm]
  rcases h : HIGH_TRUST_DOMAINS.find? (fun p => substrIn p.1 (_extract_domain url)) with _ | p <;>
    simp only [h] <;>
    rw [length_chain, vocab_chain] <;>
    simp only [if_add_term, if_sub_term] <;>
    ring_nf

/-- Every configured domain-reputation factor exceeds `1`. -/
theorem highTrustBoost_gt_one : ∀ p ∈ HIGH_TRUST_DOMAINS, (1 : ℚ) < p.2 := by
  intro p hp
  fin_cases hp <;> norm_num

/-- C10: the domain-reputation step never lowers the running score: the
score after the length adjustment is at least `0.35` (worst case
`0.5 - 0.15`), and every configured boost factor exceeds `1`, so
multiplying by the matched factor — or by `1` when none matches — cannot
decrease it. -/
theorem domain_boost_never_lowers_score (content url : String) :
    (0.35 : ℚ) ≤ scoreAfterLength content ∧
      scoreAfterLength content ≤ scoreAfterDomain content url := by
  have h35 : (0.35 : ℚ) ≤ scoreAfterLength content := by
    simp only [scoreAfterLength, lengthDelta]
    split_ifs <;> norm_num
  refine ⟨h35, ?_⟩
  have h0 : (0 : ℚ) ≤ scoreAfterLength content := le_trans (by norm_num) h35
  simp only [scoreAfterDomain, domainFactor]
  rcases h : HIGH_TRUST_DOMAINS.find? (fun p => substrIn p.1 (_extract_domain url)) with _ | p
  · simp only [h]
    simp
  · simp only [h]
    exact le_mul_of_one_le_right h0
      (le_of_lt (highTrustBoost_gt_one p (List.mem_of_find?_eq_some h)))

/-- C9: the structural analyzer guards: HTML below the minimum length gives
score `0` with reason "Empty or too short content", and unparsable HTML
gives score exactly `30` with reason "Failed to parse HTML"; in both cases
no further checks run — the result is independent of the checklist and its
adjustments list is empty. -/
theorem structure_score_guards {Dom : Type} (parseDom : String → Option Dom)
    (minLen : ℕ) (base : ℤ) (checks : Dom → String → List (ℤ × String))
    (html topic : String) :
    (html.length < minLen →
      calculate_structure_score parseDom minLen base checks html topic =
        { score := 0, reason := "Empty or too short content", adjustments := [] }) ∧
    (¬ html.length < minLen → parseDom html = none →
      calculate_structure_score parseDom minLen base checks html topic =
        { score := 30, reason := "Failed to parse HTML", adjustments := [] }) := by
  constructor
  · intro h
    unfold calculate_structure_score
    rw [if_pos h]
  · intro h hp
    unfold calculate_structure_score
    rw [if_neg h]
    simp only [hp]

/-- C9 (witness): the two guards on the concrete fixtures of
`test_analyzer.py` — empty HTML below a threshold of 50, and the malformed
HTML with a parser that rejects it. -/
theorem structure_score_guards_witness :
    calculate_structure_score (fun _ => (none : Option Unit)) 50 100
      (fun _ _ => []) "" "test" =
      { score := 0, reason := "Empty or too short content", adjustments := [] } ∧
    calculate_structure_score (fun _ => (none : Option Unit)) 2 100
      (fun _ _ => []) "<html><unclosed><tags>content" "test" =
      { score := 30, reason := "Failed to parse HTML", adjustments := [] } :=
  ⟨(structure_score_guards _ 50 100 _ "" "test").1 (by decide),
   (structure_score_guards _ 2 100 _ "<html><unclosed><tags>content" "test").2
     (by decide) rfl⟩

end Sgnl
